import Mathlib

/-!
Shallow embedding of `src/app.py` (class `ImageCaptioningApp`).

The program's mutable object state is `self.caption_pipeline` (an optional
inference handle, here an opaque `Nat`) and `self.device` (an `Int`: `0`
means GPU/ACCELERATED, `-1` means CPU, exactly the values the Python code
uses).  The two external collaborators are passed in explicitly:

* the pipeline constructor `transformers.pipeline(...)` is modelled as
  `ctor : Nat → Int → Except String Nat`, taking the index of the
  construction call (so that a proof can count constructions and let
  successive calls behave differently) and the device argument, returning
  either a handle or a raised exception message;
* inference `self.caption_pipeline(image)` is modelled as
  `infer : Nat → Image → Except String (List Candidate)`, taking the
  cached handle and the (normalised) image and returning either the list
  of candidates or a raised exception message.

A construction-call counter `calls : Nat` is threaded through, incremented
exactly where the Python code invokes `pipeline(...)`.
-/

namespace CaptionApp

/-- A PIL image as far as the program observes it: its `mode` string and an
opaque payload distinguishing images. -/
structure Image where
  mode : String
  payload : Nat
deriving DecidableEq, Repr

/-- `PIL.Image.convert`: returns an image with the new mode and the same
payload. -/
def Image.convert (img : Image) (m : String) : Image :=
  { img with mode := m }

/-- One candidate of the inference result: a record with a
`generated_text` field (`result[0]['generated_text']` in the source). -/
structure Candidate where
  generated_text : String
deriving DecidableEq, Repr

/-- The mutable state of `ImageCaptioningApp`: `self.caption_pipeline`
(None until loaded) and `self.device` (0 for GPU, -1 for CPU). -/
structure AppState where
  caption_pipeline : Option Nat
  device : Int
deriving DecidableEq, Repr

/-- Python `str.lower()` (ASCII case folding, which is all the program's
patterns need). -/
def pyLower (s : String) : String :=
  ⟨s.data.map Char.toLower⟩

/-- Does `s` start with `pat`? (helper for the substring test). -/
def listStartsWith : List Char → List Char → Bool
  | [], _ => true
  | _ :: _, [] => false
  | p :: ps, c :: cs => p == c && listStartsWith ps cs

/-- Does `pat` occur contiguously in `s`? (helper for the substring test). -/
def listHasSub (pat s : List Char) : Bool :=
  match s with
  | [] => pat.isEmpty
  | _ :: cs => listStartsWith pat s || listHasSub pat cs

/-- Python's substring test `pat in s`. -/
def pyContains (s pat : String) : Bool :=
  listHasSub pat.data s.data

/-- Helper for `pyStrip`: drop leading whitespace characters. -/
def dropLeadingWs : List Char → List Char
  | [] => []
  | c :: cs => if c.isWhitespace then dropLeadingWs cs else c :: cs

/-- Python `str.strip()`: remove leading and trailing whitespace. -/
def pyStrip (s : String) : String :=
  ⟨(dropLeadingWs (dropLeadingWs s.data).reverse).reverse⟩

/-- `ImageCaptioningApp.load_model` (src/app.py lines 59-101).
Returns the boolean the method returns, the updated object state, and the
updated construction-call counter.

* if `self.caption_pipeline is not None`: return True at once;
* else call `pipeline(..., device=self.device)`; on success cache the
  handle and return True;
* on exception, if `self.device == 0` retry once with `device=-1`; on
  success cache the handle, set `self.device = -1` and return True; on a
  second exception return False;
* on exception with `self.device != 0` return False. -/
def load_model (ctor : Nat → Int → Except String Nat) (s : AppState)
    (calls : Nat) : Bool × AppState × Nat :=
  match s.caption_pipeline with
  | some _ => (true, s, calls)
  | none =>
    match ctor calls s.device with
    | .ok h => (true, { s with caption_pipeline := some h }, calls + 1)
    | .error _ =>
      if s.device = 0 then
        match ctor (calls + 1) (-1) with
        | .ok h => (true, { caption_pipeline := some h, device := -1 }, calls + 2)
        | .error _ => (false, s, calls + 2)
      else
        (false, s, calls + 1)

/-- The upload-prompt message (src/app.py line 115). -/
def noImageMsg : String := "❌ Please upload an image first!"

/-- The load-failure guidance message (src/app.py lines 119-123). -/
def loadFailMsg : String :=
  "❌ Failed to load AI model. This might be due to:\n• Internet connection issues\n• Insufficient memory\n• Missing dependencies\n\nPlease try restarting the application."

/-- The empty-result soft-failure message (src/app.py line 147). -/
def emptyResultMsg : String := "❌ Could not generate a caption for this image."

/-- The out-of-memory guidance message (src/app.py lines 155-158). -/
def oomMsg : String :=
  "❌ Out of memory error. Try:\n• Using a smaller image\n• Restarting the application\n• Using CPU instead of GPU"

/-- The connectivity guidance message (src/app.py line 160). -/
def connMsg : String := "❌ Network error. Please check your internet connection."

/-- The pixel-format normalisation step (src/app.py lines 128-131):
`if image.mode != 'RGB': image = image.convert('RGB')`. -/
def normalizeRGB (img : Image) : Image :=
  if img.mode = "RGB" then img else img.convert "RGB"

/-- The `except Exception as e` classification (src/app.py lines 149-162):
case-insensitive substring match on the exception's message. -/
def classify_error (error_msg : String) : String :=
  if pyContains (pyLower error_msg) "out of memory" then oomMsg
  else if pyContains (pyLower error_msg) "connection" then connMsg
  else "❌ Processing error: " ++ error_msg

/-- `ImageCaptioningApp.generate_caption` (src/app.py lines 103-162).

* `image is None`: return the upload prompt at once;
* `load_model()` returns False: return the load-failure guidance;
* normalise the image to RGB, run the pipeline on it;
* exception raised: classify its message (`classify_error`);
* non-empty result (`if result and len(result) > 0`): take
  `result[0]['generated_text']`, `strip()` it, prefix the success marker;
* empty result: return the empty-result message.

When `load_model` returned True, `self.caption_pipeline` is not None; the
`none` branch below is unreachable (see `load_model_true_some`) and models
what Python would do there: calling `None(image)` raises a TypeError that
the surrounding `except` turns into the generic processing error. -/
def generate_caption (ctor : Nat → Int → Except String Nat)
    (infer : Nat → Image → Except String (List Candidate))
    (s : AppState) (calls : Nat) (image : Option Image) :
    String × AppState × Nat :=
  match image with
  | none => (noImageMsg, s, calls)
  | some img =>
    match load_model ctor s calls with
    | (false, s', calls') => (loadFailMsg, s', calls')
    | (true, s', calls') =>
      match s'.caption_pipeline with
      | none =>
        (classify_error "'NoneType' object is not callable", s', calls')
      | some h =>
        match infer h (normalizeRGB img) with
        | .error e => (classify_error e, s', calls')
        | .ok [] => (emptyResultMsg, s', calls')
        | .ok (c :: _) =>
          ("🎯 " ++ pyStrip c.generated_text, s', calls')

/-- If `load_model` returns True, the cached pipeline is set. -/
theorem load_model_true_some (ctor : Nat → Int → Except String Nat)
    (s : AppState) (calls : Nat) (s' : AppState) (calls' : Nat)
    (h : load_model ctor s calls = (true, s', calls')) :
    ∃ hdl, s'.caption_pipeline = some hdl := by
  unfold load_model at h
  cases hp : s.caption_pipeline with
  | some hdl =>
    rw [hp] at h
    exact ⟨hdl, by simpa using (congrArg (fun t => t.2.1.caption_pipeline) h).symm.trans (by rw [hp])⟩
  | none =>
    rw [hp] at h
    cases hc : ctor calls s.device with
    | ok hdl =>
      rw [hc] at h
      refine ⟨hdl, ?_⟩
      have := congrArg (fun t => t.2.1.caption_pipeline) h
      simpa using this.symm
    | error e =>
      rw [hc] at h
      by_cases hd : s.device = 0
      · rw [if_pos hd] at h
        cases hc2 : ctor (calls + 1) (-1) with
        | ok hdl =>
          rw [hc2] at h
          refine ⟨hdl, ?_⟩
          have := congrArg (fun t => t.2.1.caption_pipeline) h
          simpa using this.symm
        | error e2 =>
          rw [hc2] at h
          exact absurd (congrArg (fun t => t.1) h) (by simp)
      · rw [if_neg hd] at h
        exact absurd (congrArg (fun t => t.1) h) (by simp)

/-- If the cached pipeline is set, `load_model` returns True and changes
nothing (src/app.py lines 66-67). -/
theorem load_model_cached (ctor : Nat → Int → Except String Nat)
    (s : AppState) (calls : Nat) (hdl : Nat)
    (h : s.caption_pipeline = some hdl) :
    load_model ctor s calls = (true, s, calls) := by
  unfold load_model
  rw [h]

/-- Every branch of `classify_error` is one of the three guidance strings. -/
theorem classify_error_cases (e : String) :
    classify_error e = oomMsg ∨ classify_error e = connMsg ∨
      classify_error e = "❌ Processing error: " ++ e := by
  unfold classify_error
  split
  · exact Or.inl rfl
  · split
    · exact Or.inr (Or.inl rfl)
    · exact Or.inr (Or.inr rfl)

/-- When loading succeeds, `generate_caption` reaches the inference step
with the cached handle and the normalised image, and its state and call
counter are those left by `load_model`. -/
theorem generate_caption_infer_step (ctor : Nat → Int → Except String Nat)
    (infer : Nat → Image → Except String (List Candidate))
    (s : AppState) (calls : Nat) (img : Image)
    (hload : (load_model ctor s calls).1 = true) :
    ∃ hdl, (load_model ctor s calls).2.1.caption_pipeline = some hdl ∧
      generate_caption ctor infer s calls (some img) =
        ((match infer hdl (normalizeRGB img) with
          | .error e => classify_error e
          | .ok [] => emptyResultMsg
          | .ok (c :: _) => "🎯 " ++ pyStrip c.generated_text),
         (load_model ctor s calls).2.1, (load_model ctor s calls).2.2) := by
  rcases hlm : load_model ctor s calls with ⟨b, s', calls'⟩
  rw [hlm] at hload
  subst hload
  obtain ⟨hdl, hsome⟩ := load_model_true_some ctor s calls s' calls' hlm
  refine ⟨hdl, by simpa using hsome, ?_⟩
  have hsp : s'.caption_pipeline = some hdl := by simpa using hsome
  unfold generate_caption
  rw [hlm]
  cases hinf : infer hdl (normalizeRGB img) with
  | error e => simp [hsp, hinf]
  | ok l => cases l with
    | nil => simp [hsp, hinf]
    | cons c cs => simp [hsp, hinf]

/-- C1: for every input image (including None) and every behaviour of the
inference collaborator (any list of candidates, or any raised exception
message) and of the pipeline constructor, `generate_caption` returns a
string to its caller — one of the human-readable message forms — and never
propagates an exception. -/
theorem generate_caption_always_returns_message
    (ctor : Nat → Int → Except String Nat)
    (infer : Nat → Image → Except String (List Candidate))
    (s : AppState) (calls : Nat) (image : Option Image) :
    (generate_caption ctor infer s calls image).1 = noImageMsg ∨
    (generate_caption ctor infer s calls image).1 = loadFailMsg ∨
    (generate_caption ctor infer s calls image).1 = emptyResultMsg ∨
    (generate_caption ctor infer s calls image).1 = oomMsg ∨
    (generate_caption ctor infer s calls image).1 = connMsg ∨
    (∃ e, (generate_caption ctor infer s calls image).1 =
      "❌ Processing error: " ++ e) ∨
    (∃ c, (generate_caption ctor infer s calls image).1 = "🎯 " ++ c) := by
  cases image with
  | none => exact Or.inl rfl
  | some img =>
    rcases hlm : load_model ctor s calls with ⟨b, s', calls'⟩
    cases b with
    | false =>
      refine Or.inr (Or.inl ?_)
      unfold generate_caption
      rw [hlm]
    | true =>
      obtain ⟨hdl, hsome, heq⟩ :=
        generate_caption_infer_step ctor infer s calls img (by rw [hlm])
      rw [heq]
      cases hinf : infer hdl (normalizeRGB img) with
      | error e =>
        rcases classify_error_cases e with h | h | h
        · exact Or.inr (Or.inr (Or.inr (Or.inl (by simp [hinf, h]))))
        · exact Or.inr (Or.inr (Or.inr (Or.inr (Or.inl (by simp [hinf, h])))))
        · exact Or.inr (Or.inr (Or.inr (Or.inr (Or.inr (Or.inl
            ⟨e, by simp [hinf, h]⟩)))))
      | ok l =>
        cases l with
        | nil => exact Or.inr (Or.inr (Or.inl (by simp [hinf])))
        | cons c cs =>
          exact Or.inr (Or.inr (Or.inr (Or.inr (Or.inr (Or.inr
            ⟨pyStrip c.generated_text, by simp [hinf]⟩)))))

/-- C2: with a None image, `generate_caption` returns the upload-prompt
message at once: the state and the construction-call counter are returned
untouched, so the Model Loader is never invoked and no inference is
attempted. -/
theorem generate_caption_none_image
    (ctor : Nat → Int → Except String Nat)
    (infer : Nat → Image → Except String (List Candidate))
    (s : AppState) (calls : Nat) :
    generate_caption ctor infer s calls none = (noImageMsg, s, calls) := rfl

/-- Counterexample to C3 as stated: with a constructor failing on both
devices and the device set to ACCELERATED (0), the failed load leaves the
device at 0 — the claim's "switches DeviceChoice to CPU" does not hold on
the failed-retry path, because the source only assigns `self.device = -1`
after a successful CPU retry. -/
theorem load_model_no_cpu_switch_on_double_failure :
    (load_model (fun _ _ => Except.error "boom") ⟨none, 0⟩ 0).1 = false ∧
    (load_model (fun _ _ => Except.error "boom") ⟨none, 0⟩ 0).2.1.device = 0 ∧
    ¬ (load_model (fun _ _ => Except.error "boom") ⟨none, 0⟩ 0).2.1.device = -1 := by
  decide

/-- C3 (amended): if construction fails while the device is ACCELERATED
(0), the loader retries construction exactly once on CPU; on a successful
retry it caches the handle and switches the device to CPU (-1); if the
retry also fails, the load fails for that attempt and the device is left
unchanged (still ACCELERATED); if the device was already CPU a failed
construction fails with no retry; and once the device is CPU it never
reverts to ACCELERATED. -/
theorem load_model_fallback_policy (ctor : Nat → Int → Except String Nat)
    (s : AppState) (calls : Nat) :
    (s.device = -1 → (load_model ctor s calls).2.1.device = -1) ∧
    (s.caption_pipeline = none → s.device = 0 →
      ∀ e, ctor calls 0 = Except.error e →
        load_model ctor s calls =
          (match ctor (calls + 1) (-1) with
           | .ok h => (true, ⟨some h, -1⟩, calls + 2)
           | .error _ => (false, s, calls + 2))) ∧
    (s.caption_pipeline = none → s.device ≠ 0 →
      ∀ e, ctor calls s.device = Except.error e →
        load_model ctor s calls = (false, s, calls + 1)) := by
  refine ⟨?_, ?_, ?_⟩
  · intro hdev
    unfold load_model
    cases hp : s.caption_pipeline with
    | some hdl => simpa using hdev
    | none =>
      cases hc : ctor calls s.device with
      | ok h => simpa using hdev
      | error e =>
        rw [if_neg (by rw [hdev]; decide)]
        simpa using hdev
  · intro hp hdev e hc
    unfold load_model
    rw [hp, hdev] at *
    rw [hc, if_pos rfl]
  · intro hp hdev e hc
    unfold load_model
    rw [hp, hc, if_neg hdev]

/-- A constructor stub that fails on the accelerated device and succeeds
on CPU with handle 7 (the spec's device-fallback test scenario). -/
def ctorGpuFailCpuOk : Nat → Int → Except String Nat :=
  fun _ d => if d = 0 then Except.error "CUDA error" else Except.ok 7

/-- Witness for C3 (amended): from the fresh ACCELERATED state, with a
constructor that fails on device 0 and succeeds on CPU, the load succeeds,
caches handle 7, switches the device to CPU and made two construction
calls. -/
theorem load_model_fallback_policy_witness :
    load_model ctorGpuFailCpuOk ⟨none, 0⟩ 0 = (true, ⟨some 7, -1⟩, 2) := by
  have h := (load_model_fallback_policy ctorGpuFailCpuOk ⟨none, 0⟩ 0).2.1
    rfl rfl "CUDA error" rfl
  simpa [ctorGpuFailCpuOk] using h

/-- `n` successive calls of `load_model` on the shared object state: the
returned boolean is True iff every call returned True, and the final state
and construction-call counter are threaded through. -/
def load_model_times (ctor : Nat → Int → Except String Nat) :
    Nat → AppState → Nat → Bool × AppState × Nat
  | 0, s, calls => (true, s, calls)
  | n + 1, s, calls =>
    match load_model ctor s calls with
    | (b, s', calls') =>
      match load_model_times ctor n s' calls' with
      | (brest, s'', calls'') => (b && brest, s'', calls'')

/-- Once the handle is cached, any number of further `load_model` calls
all succeed and change nothing. -/
theorem load_model_times_cached (ctor : Nat → Int → Except String Nat)
    (n : Nat) (s : AppState) (calls : Nat) (hdl : Nat)
    (h : s.caption_pipeline = some hdl) :
    load_model_times ctor n s calls = (true, s, calls) := by
  induction n with
  | zero => rfl
  | succ n ih =>
    unfold load_model_times
    simp [load_model_cached ctor s calls hdl h, ih]

/-- C4: when no handle is cached and the first construction succeeds with
handle `hdl`, N = n+1 calls of `load_model` all return True, the final
state caches exactly that handle, and the construction counter rose by
exactly one: construction was triggered exactly once, and (by
`load_model_cached`, restated in the first conjunct) every call after the
first returned the same cached handle immediately without re-attempting
construction. -/
theorem load_model_idempotent (ctor : Nat → Int → Except String Nat)
    (s : AppState) (calls : Nat) (hdl : Nat)
    (h1 : s.caption_pipeline = none)
    (h2 : ctor calls s.device = Except.ok hdl) :
    (∀ s' calls', s'.caption_pipeline = some hdl →
        load_model ctor s' calls' = (true, s', calls')) ∧
    ∀ n, load_model_times ctor (n + 1) s calls =
      (true, { s with caption_pipeline := some hdl }, calls + 1) := by
  constructor
  · intro s' calls' hs
    exact load_model_cached ctor s' calls' hdl hs
  · intro n
    have hfirst : load_model ctor s calls =
        (true, { s with caption_pipeline := some hdl }, calls + 1) := by
      unfold load_model
      rw [h1, h2]
    unfold load_model_times
    simp [hfirst,
      load_model_times_cached ctor n { s with caption_pipeline := some hdl }
        (calls + 1) hdl rfl]

/-- Witness for C4: with a constructor that always yields handle 5 and a
fresh CPU-device state, three successive `load_model` calls all succeed,
the cached handle is 5, and only one construction call was made. -/
theorem load_model_idempotent_witness :
    load_model_times (fun _ _ => Except.ok 5) 3 ⟨none, -1⟩ 0 =
      (true, ⟨some 5, -1⟩, 1) := by
  have h := (load_model_idempotent (fun _ _ => Except.ok 5) ⟨none, -1⟩ 0 5
    rfl rfl).2 2
  simpa using h

/-- C5: whenever loading succeeds and the inference collaborator returns
an empty candidate list, `generate_caption` returns the distinct
"could not generate a caption" soft-failure message, which is not the
generic processing-error message for any underlying text (and, being a
returned string, not an exception). -/
theorem generate_caption_empty_result (ctor : Nat → Int → Except String Nat)
    (infer : Nat → Image → Except String (List Candidate))
    (s : AppState) (calls : Nat) (img : Image)
    (hload : (load_model ctor s calls).1 = true)
    (hinf : ∀ h i, infer h i = Except.ok ([] : List Candidate)) :
    (generate_caption ctor infer s calls (some img)).1 = emptyResultMsg ∧
    ∀ e, emptyResultMsg ≠ "❌ Processing error: " ++ e := by
  constructor
  · obtain ⟨hdl, _, heq⟩ :=
      generate_caption_infer_step ctor infer s calls img hload
    rw [heq]
    simp [hinf]
  · intro e hcontra
    have h2 : emptyResultMsg.data = ("❌ Processing error: " ++ e).data :=
      congrArg String.data hcontra
    rw [String.data_append] at h2
    simp [emptyResultMsg] at h2

/-- Witness for C5: with a stub collaborator returning an empty sequence
(and an always-succeeding constructor from a fresh CPU state), the result
is exactly the "could not generate a caption" message. -/
theorem generate_caption_empty_result_witness :
    (generate_caption (fun _ _ => Except.ok 5)
        (fun _ _ => Except.ok ([] : List Candidate))
        ⟨none, -1⟩ 0 (some ⟨"RGB", 0⟩)).1 = emptyResultMsg ∧
    emptyResultMsg ≠ "❌ Processing error: " ++ "x" := by
  have h := generate_caption_empty_result (fun _ _ => Except.ok 5)
    (fun _ _ => Except.ok ([] : List Candidate)) ⟨none, -1⟩ 0 ⟨"RGB", 0⟩
    (by decide) (fun _ _ => rfl)
  exact ⟨h.1, h.2 "x"⟩

/-- C6: when loading succeeds and inference raises a fault with message
`e`, `generate_caption` classifies `e` by case-insensitive substring
matching, in order: a message containing "out of memory" yields the
out-of-memory guidance; otherwise one containing "connection" yields the
connectivity guidance; otherwise the generic processing-error string
echoing the original message. -/
theorem generate_caption_error_classification
    (ctor : Nat → Int → Except String Nat)
    (infer : Nat → Image → Except String (List Candidate))
    (s : AppState) (calls : Nat) (img : Image) (e : String)
    (hload : (load_model ctor s calls).1 = true)
    (hinf : ∀ h i, infer h i = Except.error e) :
    (pyContains (pyLower e) "out of memory" = true →
      (generate_caption ctor infer s calls (some img)).1 = oomMsg) ∧
    (pyContains (pyLower e) "out of memory" = false →
     pyContains (pyLower e) "connection" = true →
      (generate_caption ctor infer s calls (some img)).1 = connMsg) ∧
    (pyContains (pyLower e) "out of memory" = false →
     pyContains (pyLower e) "connection" = false →
      (generate_caption ctor infer s calls (some img)).1 =
        "❌ Processing error: " ++ e) := by
  obtain ⟨hdl, _, heq⟩ :=
    generate_caption_infer_step ctor infer s calls img hload
  rw [heq]
  refine ⟨?_, ?_, ?_⟩
  · intro hoom
    simp [hinf, classify_error, hoom]
  · intro hoom hconn
    simp [hinf, classify_error, hoom, hconn]
  · intro hoom hconn
    simp [hinf, classify_error, hoom, hconn]

/-- Witness for C6: a fault whose message contains "Out Of Memory" (mixed
case) yields the out-of-memory guidance, with the other two hypotheses'
scenarios exercised through the substring checks. -/
theorem generate_caption_error_classification_witness :
    (generate_caption (fun _ _ => Except.ok 5)
        (fun _ _ => Except.error "CUDA Out Of Memory while decoding")
        ⟨none, -1⟩ 0 (some ⟨"RGB", 0⟩)).1 = oomMsg := by
  have h := generate_caption_error_classification (fun _ _ => Except.ok 5)
    (fun _ _ => Except.error "CUDA Out Of Memory while decoding")
    ⟨none, -1⟩ 0 ⟨"RGB", 0⟩ "CUDA Out Of Memory while decoding"
    (by decide) (fun _ _ => rfl)
  exact h.1 (by decide)

/-- C7: when loading succeeds and the inference collaborator returns at
least one candidate, `generate_caption` takes the first candidate,
extracts its generated text, strips leading and trailing whitespace and
returns it prefixed with the success marker. -/
theorem generate_caption_first_candidate_stripped
    (ctor : Nat → Int → Except String Nat)
    (infer : Nat → Image → Except String (List Candidate))
    (s : AppState) (calls : Nat) (img : Image)
    (c : Candidate) (cs : List Candidate)
    (hload : (load_model ctor s calls).1 = true)
    (hinf : ∀ h i, infer h i = Except.ok (c :: cs)) :
    (generate_caption ctor infer s calls (some img)).1 =
      "🎯 " ++ pyStrip c.generated_text := by
  obtain ⟨hdl, _, heq⟩ :=
    generate_caption_infer_step ctor infer s calls img hload
  rw [heq]
  simp [hinf]

/-- Witness for C7: for candidate text "  a dog running  " the returned
success string is exactly "🎯 a dog running", with no leading or trailing
whitespace around the caption. -/
theorem generate_caption_first_candidate_stripped_witness :
    (generate_caption (fun _ _ => Except.ok 5)
        (fun _ _ => Except.ok [⟨"  a dog running  "⟩])
        ⟨none, -1⟩ 0 (some ⟨"RGB", 0⟩)).1 = "🎯 a dog running" := by
  have h := generate_caption_first_candidate_stripped (fun _ _ => Except.ok 5)
    (fun _ _ => Except.ok [⟨"  a dog running  "⟩]) ⟨none, -1⟩ 0 ⟨"RGB", 0⟩
    ⟨"  a dog running  "⟩ [] (by decide) (fun _ _ => rfl)
  rw [h]
  decide

/-- An inference stub that observes the pixel format of the image it is
handed: it succeeds only when that image reports mode "RGB". -/
def probeInfer : Nat → Image → Except String (List Candidate) :=
  fun _ i =>
    if i.mode = "RGB" then Except.ok [⟨"rgb-seen"⟩]
    else Except.error "non-RGB image reached inference"

/-- C8: the normalisation step always hands inference a three-channel
(RGB) image: `normalizeRGB` yields mode "RGB" for every input image, and
running `generate_caption` with a collaborator that succeeds only on
RGB-mode images always yields that collaborator's success caption,
whatever the uploaded image's mode. -/
theorem generate_caption_normalizes_to_rgb (img : Image) :
    (normalizeRGB img).mode = "RGB" ∧
    ∀ ctor s calls, (load_model ctor s calls).1 = true →
      (generate_caption ctor probeInfer s calls (some img)).1 = "🎯 rgb-seen" := by
  have hmode : (normalizeRGB img).mode = "RGB" := by
    unfold normalizeRGB
    split
    · assumption
    · rfl
  refine ⟨hmode, ?_⟩
  intro ctor s calls hload
  obtain ⟨hdl, _, heq⟩ :=
    generate_caption_infer_step ctor probeInfer s calls img hload
  rw [heq]
  simp only [probeInfer, hmode, if_pos]
  decide

/-- Witness for C8: a greyscale-mode image is converted before inference,
so the RGB-only collaborator succeeds on it. -/
theorem generate_caption_normalizes_to_rgb_witness :
    (normalizeRGB ⟨"L", 1⟩).mode = "RGB" ∧
    (generate_caption (fun _ _ => Except.ok 3) probeInfer
        ⟨none, -1⟩ 0 (some ⟨"L", 1⟩)).1 = "🎯 rgb-seen" := by
  have h := generate_caption_normalizes_to_rgb ⟨"L", 1⟩
  exact ⟨h.1, h.2 (fun _ _ => Except.ok 3) ⟨none, -1⟩ 0 (by decide)⟩

/-- C10: when an inference fault's message contains both "out of memory"
and "connection" (case-insensitively), the out-of-memory check fires
first, so `generate_caption` returns the out-of-memory guidance. -/
theorem generate_caption_oom_precedence
    (ctor : Nat → Int → Except String Nat)
    (infer : Nat → Image → Except String (List Candidate))
    (s : AppState) (calls : Nat) (img : Image) (e : String)
    (hload : (load_model ctor s calls).1 = true)
    (hinf : ∀ h i, infer h i = Except.error e)
    (hoom : pyContains (pyLower e) "out of memory" = true)
    (hconn : pyContains (pyLower e) "connection" = true) :
    (generate_caption ctor infer s calls (some img)).1 = oomMsg := by
  obtain ⟨hdl, _, heq⟩ :=
    generate_caption_infer_step ctor infer s calls img hload
  rw [heq]
  simp [hinf, classify_error, hoom]

/-- Witness for C10: a fault message containing both "Out of Memory" and
"Connection" yields the out-of-memory guidance. -/
theorem generate_caption_oom_precedence_witness :
    (generate_caption (fun _ _ => Except.ok 5)
        (fun _ _ => Except.error "Connection dropped: GPU out of memory")
        ⟨none, -1⟩ 0 (some ⟨"RGB", 0⟩)).1 = oomMsg := by
  exact generate_caption_oom_precedence (fun _ _ => Except.ok 5)
    (fun _ _ => Except.error "Connection dropped: GPU out of memory")
    ⟨none, -1⟩ 0 ⟨"RGB", 0⟩ "Connection dropped: GPU out of memory"
    (by decide) (fun _ _ => rfl) (by decide) (by decide)

/-- Program counter of one thread running `load_model`'s
load-check-and-create sequence: before the cached-handle check, past the
check and about to construct, or finished with a returned handle. -/
inductive LMPc where
  | start : LMPc
  | loading : LMPc
  | done : Nat → LMPc
deriving DecidableEq, Repr

/-- One atomic step of a thread executing the unguarded
load-check-and-create sequence of `load_model` (src/app.py lines 66-78),
on the success path.  The cached-handle check
(`if self.caption_pipeline is not None: return True`) and the
construct-and-store (`self.caption_pipeline = pipeline(...)`) are separate
atomic actions, because construction is a long-running call and the
method takes no lock between the check and the store.  Shared state: the
cached pipeline and the count of constructions so far; `ctor k` is the
handle produced by the k-th construction. -/
def lmStep (ctor : Nat → Nat) (shared : Option Nat × Nat) (pc : LMPc) :
    (Option Nat × Nat) × LMPc :=
  match pc with
  | .start =>
    match shared.1 with
    | some h => (shared, .done h)
    | none => (shared, .loading)
  | .loading =>
    let h := ctor shared.2
    ((some h, shared.2 + 1), .done h)
  | .done h => (shared, .done h)

/-- Run two threads over the shared state under a schedule: `true` steps
thread 1, `false` steps thread 2.  Returns the final shared state and the
final program counters of the two threads. -/
def runSched (ctor : Nat → Nat) :
    List Bool → (Option Nat × Nat) → LMPc → LMPc →
      (Option Nat × Nat) × LMPc × LMPc
  | [], shared, p1, p2 => (shared, p1, p2)
  | b :: rest, shared, p1, p2 =>
    if b then
      match lmStep ctor shared p1 with
      | (shared', p1') => runSched ctor rest shared' p1' p2
    else
      match lmStep ctor shared p2 with
      | (shared', p2') => runSched ctor rest shared' p1 p2'

/-- Counterexample to C9 as stated: two first-time callers that both pass
the cached-handle check before either stores a handle (schedule: thread 1
checks, thread 2 checks, thread 1 constructs, thread 2 constructs)
trigger TWO constructions and finish with DIFFERENT handles — the source
has no lock or once-only guard around the sequence. -/
theorem load_model_race_duplicate_construction :
    (runSched (fun k => k) [true, false, true, false]
        (none, 0) .start .start).1.2 = 2 ∧
    (runSched (fun k => k) [true, false, true, false]
        (none, 0) .start .start).2.1 = .done 0 ∧
    (runSched (fun k => k) [true, false, true, false]
        (none, 0) .start .start).2.2 = .done 1 ∧
    (runSched (fun k => k) [true, false, true, false]
        (none, 0) .start .start).2.1 ≠
      (runSched (fun k => k) [true, false, true, false]
        (none, 0) .start .start).2.2 := by
  decide

/-- C9 (amended): the load-check-and-create sequence carries no
mutual-exclusion or once-only guard, so only non-interleaved callers are
guaranteed single construction: when the first caller runs its check and
construct steps to completion before the second caller checks, exactly
one construction occurs and both callers receive the same handle. -/
theorem load_model_sequential_single_construction
    (ctor : Nat → Nat) (c : Nat) :
    runSched ctor [true, true, false] (none, c) .start .start =
      ((some (ctor c), c + 1), .done (ctor c), .done (ctor c)) := rfl

end CaptionApp
